import Mathlib

/-!
Shallow embedding of the keyvy in-memory key-value cache server
(src/main.rs) and proofs about its specification claims.

Modelling conventions:
- `Instant` is modelled as a natural number of seconds; each place where the
  source calls `Instant::now()` becomes an explicit `now : Nat` parameter
  (`handle_ttl` reads the clock twice, so it takes two such parameters).
- The `HashMap<String, CacheEntry>` store is modelled by its lookup function
  `String → Option CacheEntry`.
- A Rust panic (out-of-bounds indexing, `Option::unwrap` on `None`) is
  modelled by an `Option` result of the handler, `none` meaning the thread
  panicked; the dispatcher records it in the `panicked` field of its result.
- Each `writeln!` becomes one element of the `output` list (without the
  trailing newline).
-/

namespace Keyvy

/-- Translation of `struct CacheEntry` from src/main.rs. -/
structure CacheEntry where
  expires_at : Option Nat
  value : String
deriving DecidableEq

/-- The shared store `HashMap<String, CacheEntry>`, modelled by its lookup
function. -/
abbrev Store := String → Option CacheEntry

/-- The empty store created at process start in `main`. -/
def Store.emptyStore : Store := fun _ => none

/-- Translation of `HashMap::insert` (replaces any prior entry for the key). -/
def Store.insert (store : Store) (key : String) (entry : CacheEntry) : Store :=
  fun j => if j = key then some entry else store j

/-- Translation of `HashMap::remove` restricted to its effect on lookups. -/
def Store.remove (store : Store) (key : String) : Store :=
  fun j => if j = key then none else store j

/-- The configured password, `static PASSWORD: &str = "password"`. -/
def PASSWORD : String := "password"

/-- Translation of `str::to_uppercase` as used on command names: character
by character uppercasing (agreeing with Rust on all ASCII input). -/
def strUpper (s : String) : String := String.mk (s.data.map Char.toUpper)

/-- Indexing into the token list, `parts[i]`; `none` models the
out-of-bounds panic. -/
def tokenAt : List String → Nat → Option String
  | [], _ => none
  | t :: _, 0 => some t
  | _ :: ts, i + 1 => tokenAt ts i

/-- Decimal digit value of a character, used by `parseU64`. -/
def digitVal (c : Char) : Option Nat :=
  if c.isDigit then some (c.toNat - 48) else none

/-- Accumulating loop of `parseU64`. -/
def parseU64Core : List Char → Nat → Option Nat
  | [], acc => some acc
  | c :: cs, acc =>
    match digitVal c with
    | some d => parseU64Core cs (acc * 10 + d)
    | none => none

/-- Translation of `str::parse::<u64>()`: an optional leading plus sign,
then one or more decimal digits, rejecting any other character, the empty
string and values that overflow 64 bits. -/
def parseU64 (s : String) : Option Nat :=
  let cs :=
    match s.data with
    | '+' :: rest => rest
    | other => other
  match cs with
  | [] => none
  | _ =>
    match parseU64Core cs 0 with
    | some n => if n < 2 ^ 64 then some n else none
    | none => none

/-- Translation of `CacheEntry::new`: a zero ttl means no expiration,
otherwise the entry expires at `now + ttl_seconds`. -/
def CacheEntry.new (now : Nat) (ttl_seconds : Nat) (value : String) : CacheEntry :=
  { expires_at := if ttl_seconds = 0 then none else some (now + ttl_seconds),
    value := value }

/-- Translation of `CacheEntry::new_from_request`. With exactly four tokens
the third is the ttl (`unwrap_or(0)` on parse failure) and the fourth the
value; otherwise the third token is the value and the ttl is zero. A `none`
result models the out-of-bounds panic when the indexed token is missing. -/
def CacheEntry.new_from_request (now : Nat) (parts : List String) : Option CacheEntry :=
  if parts.length = 4 then
    match tokenAt parts 2, tokenAt parts 3 with
    | some t, some v => some (CacheEntry.new now ((parseU64 t).getD 0) v)
    | _, _ => none
  else
    match tokenAt parts 2 with
    | some v => some (CacheEntry.new now 0 v)
    | none => none

/-- Translation of `key_from_request`: `parts[1]`, `none` modelling the
out-of-bounds panic. -/
def key_from_request (parts : List String) : Option String :=
  tokenAt parts 1

/-- Translation of `keys_from_request`: tokens 1 .. parts.len()-1. -/
def keys_from_request (parts : List String) : List String :=
  parts.drop 1

/-- Translation of `get_by_key`: look the key up and treat an entry whose
expiration instant is ≤ now as absent. -/
def get_by_key (store : Store) (key : String) (now : Nat) : Option CacheEntry :=
  match store key with
  | some entry =>
    match entry.expires_at with
    | some expiration => if expiration ≤ now then none else some entry
    | none => some entry
  | none => none

/-- Translation of `Instant::checked_duration_since`: `some (later - earlier)`
when `earlier ≤ later`, otherwise `none`. -/
def checkedDurationSince (later earlier : Nat) : Option Nat :=
  if earlier ≤ later then some (later - earlier) else none

/-- Translation of the loop body of `handle_del`: remove each key in turn,
counting the keys that were physically present at removal time. -/
def delLoop : Store → List String → Store × Nat
  | store, [] => (store, 0)
  | store, k :: ks =>
    let present := (store k).isSome
    let rest := delLoop (Store.remove store k) ks
    (rest.1, (if present then 1 else 0) + rest.2)

/-- Translation of `handle_del`: remove every requested key and reply with
`:<count>`. -/
def handle_del (parts : List String) (store : Store) : Store × String :=
  let r := delLoop store (keys_from_request parts)
  (r.1, ":" ++ toString r.2)

/-- Translation of `handle_set`: insert the entry built from the request and
reply `+OK`; `none` models the indexing panic on a too-short request. -/
def handle_set (parts : List String) (store : Store) (now : Nat) : Option (Store × String) :=
  match key_from_request parts, CacheEntry.new_from_request now parts with
  | some key, some entry => some (Store.insert store key entry, "+OK")
  | _, _ => none

/-- Translation of `handle_get`: reply with the bulk-framed value for a live
entry, `$-1` otherwise; `none` models the indexing panic. String length is
the byte length, as in Rust `String::len`. -/
def handle_get (parts : List String) (store : Store) (now : Nat) : Option String :=
  match key_from_request parts with
  | some key =>
    match get_by_key store key now with
    | some entry =>
      some ("$" ++ toString entry.value.utf8ByteSize ++ "\r\n" ++ entry.value)
    | none => some "$-1"
  | none => none

/-- Translation of `handle_ttl`. `now1` is the clock reading inside
`get_by_key`, `now2` the later reading inside `checked_duration_since`;
`none` models a panic (indexing, or `unwrap` of a failed
`checked_duration_since`). -/
def handle_ttl (parts : List String) (store : Store) (now1 now2 : Nat) : Option String :=
  match key_from_request parts with
  | some key =>
    match get_by_key store key now1 with
    | some entry =>
      match entry.expires_at with
      | some expiration =>
        match checkedDurationSince expiration now2 with
        | some seconds_left => some (toString seconds_left)
        | none => none
      | none => some "-1"
    | none => some "-1"
  | none => none

/-- Translation of the body of the `retain` closure in `periodic_cleanup`:
one sweeper tick keeps exactly the entries that are unexpired at `now`. -/
def periodic_cleanup_tick (store : Store) (now : Nat) : Store :=
  fun k =>
    match store k with
    | some entry =>
      match entry.expires_at with
      | some exp => if now < exp then some entry else none
      | none => some entry
    | none => none

/-- Translation of `check_authenticated`: first component is the returned
boolean, second the lines written. -/
def check_authenticated (auth : Bool) : Bool × List String :=
  if !auth then (false, ["-NOAUTH Authentication required."]) else (true, [])

/-- Translation of `check_password`: compares `parts[1]` with the configured
password; `none` models the indexing panic (unreachable after the arity
check). -/
def check_password (parts : List String) : Option (Bool × String) :=
  match tokenAt parts 1 with
  | some pw =>
    if pw = PASSWORD then some (true, "+OK") else some (false, "-ERR invalid password")
  | none => none

/-- Translation of `check_params`: commands need at least two tokens. -/
def check_params (parts : List String) (command : String) : Bool × List String :=
  if parts.length < 2 then
    (false, ["-ERR wrong number of arguments for \x27" ++ command ++ "\x27"])
  else
    (true, [])

/-- Result of processing one request line in `handle_connection`:
the session flag, the store, the lines written, whether the loop returned
(connection closed), and whether the thread panicked. -/
structure StepResult where
  auth : Bool
  store : Store
  output : List String
  closed : Bool
  panicked : Bool

/-- A non-closing, non-panicking reply. -/
def reply (auth : Bool) (store : Store) (msgs : List String) : StepResult :=
  { auth := auth, store := store, output := msgs, closed := false, panicked := false }

/-- A step that wrote `msgs` and then panicked (thread dies, nothing else is
written, the connection drops without a further reply). -/
def panicStep (auth : Bool) (store : Store) (msgs : List String) : StepResult :=
  { auth := auth, store := store, output := msgs, closed := false, panicked := true }

/-- Translation of the `match command.as_str()` dispatch in
`handle_connection`, for an already-uppercased command name. -/
def dispatchCommand (auth : Bool) (store : Store) (now now2 : Nat)
    (command : String) (parts : List String) : StepResult :=
  if command = "AUTH" then
    if (check_params parts command).1 then
      match check_password parts with
      | some r => reply r.1 store [r.2]
      | none => panicStep auth store []
    else
      reply auth store (check_params parts command).2
  else if command = "PING" then
    reply auth store ["+PONG"]
  else if command = "GET" then
    if (check_authenticated auth).1 then
      match handle_get parts store now with
      | some msg => reply auth store [msg]
      | none => panicStep auth store []
    else
      reply auth store (check_authenticated auth).2
  else if command = "TTL" then
    if (check_authenticated auth).1 then
      match handle_ttl parts store now now2 with
      | some msg => reply auth store [msg]
      | none => panicStep auth store []
    else
      reply auth store (check_authenticated auth).2
  else if command = "SET" then
    if (check_authenticated auth).1 then
      match handle_set parts store now with
      | some r => reply auth r.1 [r.2]
      | none => panicStep auth store []
    else
      reply auth store (check_authenticated auth).2
  else if command = "DEL" then
    if (check_authenticated auth).1 then
      let r := handle_del parts store
      reply auth r.1 [r.2]
    else
      reply auth store (check_authenticated auth).2
  else if command = "QUIT" then
    { auth := auth, store := store, output := ["+OK"], closed := true, panicked := false }
  else
    reply auth store ["-ERR: unknown command \x27" ++ command ++ "\x27"]

/-- Translation of one iteration of the `handle_connection` loop, applied to
an already-tokenized request line. An empty token list writes the
empty-command error and then panics on `parts[0]` (the source does not
`continue` after that write). -/
def processParts (auth : Bool) (store : Store) (now now2 : Nat)
    (parts : List String) : StepResult :=
  match tokenAt parts 0 with
  | some head => dispatchCommand auth store now now2 (strUpper head) parts
  | none => panicStep auth store ["-ERR empty command"]

/-- Per-connection session state threaded through the request loop. -/
structure SessionState where
  auth : Bool
  store : Store
  closed : Bool
  panicked : Bool

/-- One request line of a session run: the tokens and the two clock readings
used while processing it. -/
abbrev LineInput := List String × Nat × Nat

/-- One loop iteration on the session state; once the connection is closed or
the thread has panicked, further lines are not processed. -/
def sessionStep (st : SessionState) (l : LineInput) : SessionState :=
  if st.closed || st.panicked then st
  else
    let r := processParts st.auth st.store l.2.1 l.2.2 l.1
    { auth := r.auth, store := r.store, closed := r.closed, panicked := r.panicked }

/-- Translation of the `handle_connection` loop: the session starts with
`authendificated = false` and processes the given request lines in order. -/
def runSession (store : Store) (lines : List LineInput) : SessionState :=
  lines.foldl sessionStep
    { auth := false, store := store, closed := false, panicked := false }

/-- A request line is a well-formed AUTH command: the first token uppercases
to AUTH and a password token is present. -/
def isWellFormedAuth (parts : List String) : Bool :=
  match tokenAt parts 0 with
  | some cmd => strUpper cmd == "AUTH" && decide (2 ≤ parts.length)
  | none => false

/-- The password carried by the most recent well-formed AUTH line of the
list, if any. -/
def lastAuthPw (lines : List LineInput) : Option String :=
  lines.foldl (fun acc l => if isWellFormedAuth l.1 then tokenAt l.1 1 else acc) none

/-- Specification-side count for DEL: the number of listed keys that are
physically present in the store, counting no key twice (`seen` collects the
keys already counted or removed). -/
def distinctPresentCount (store : Store) : List String → List String → Nat
  | _, [] => 0
  | seen, k :: ks =>
    (if k ∉ seen ∧ (store k).isSome then 1 else 0) +
      distinctPresentCount store (k :: seen) ks

/-- The reply line produced by a successful dispatch of GET. -/
def getReply (store : Store) (k : String) (now : Nat) : String :=
  match get_by_key store k now with
  | some entry => "$" ++ toString entry.value.utf8ByteSize ++ "\r\n" ++ entry.value
  | none => "$-1"

/-- The reply line produced by a dispatch of TTL, `none` meaning a panic. -/
def ttlReplyOpt (store : Store) (k : String) (now1 now2 : Nat) : Option String :=
  match get_by_key store k now1 with
  | some entry =>
    match entry.expires_at with
    | some expiration =>
      match checkedDurationSince expiration now2 with
      | some seconds_left => some (toString seconds_left)
      | none => none
    | none => some "-1"
  | none => some "-1"

theorem handle_get_eq (c k : String) (rest : List String) (s : Store) (n : Nat) :
    handle_get (c :: k :: rest) s n = some (getReply s k n) := by
  show (match get_by_key s k n with
        | some entry =>
          some ("$" ++ toString entry.value.utf8ByteSize ++ "\r\n" ++ entry.value)
        | none => some "$-1") = some (getReply s k n)
  unfold getReply
  cases get_by_key s k n <;> rfl

theorem handle_ttl_eq (c k : String) (rest : List String) (s : Store) (n1 n2 : Nat) :
    handle_ttl (c :: k :: rest) s n1 n2 = ttlReplyOpt s k n1 n2 := rfl

theorem processParts_set (s : Store) (k v : String) (n n2 : Nat) :
    processParts true s n n2 ["SET", k, v] =
      reply true (Store.insert s k { expires_at := none, value := v }) ["+OK"] := rfl

theorem processParts_get (s : Store) (k : String) (n n2 : Nat) :
    processParts true s n n2 ["GET", k] = reply true s [getReply s k n] := by
  have h0 : processParts true s n n2 ["GET", k] =
      (match handle_get ["GET", k] s n with
       | some msg => reply true s [msg]
       | none => panicStep true s []) := rfl
  rw [h0, handle_get_eq]

theorem processParts_ttl (s : Store) (k : String) (n1 n2 : Nat) :
    processParts true s n1 n2 ["TTL", k] =
      (match ttlReplyOpt s k n1 n2 with
       | some msg => reply true s [msg]
       | none => panicStep true s []) := rfl

theorem processParts_del (s : Store) (keys : List String) (n n2 : Nat) :
    processParts true s n n2 ("DEL" :: keys) =
      reply true (delLoop s keys).1 [":" ++ toString (delLoop s keys).2] := rfl

/-- Claim C1 (evidence of the code bug): the arity check exists only for
AUTH. On an authenticated session, a GET or TTL line with no key token and a
SET line with a key but no value panic on out-of-bounds token indexing with
no reply written (so the connection drops without the claimed error reply),
and a DEL line with no keys is executed and answered `:0` instead of being
rejected; only AUTH answers the wrong-number-of-arguments error. -/
theorem c1_arity_check_only_for_auth :
    (processParts true Store.emptyStore 0 0 ["GET"]).panicked = true ∧
    (processParts true Store.emptyStore 0 0 ["GET"]).output = [] ∧
    (processParts true Store.emptyStore 0 0 ["TTL"]).panicked = true ∧
    (processParts true Store.emptyStore 0 0 ["TTL"]).output = [] ∧
    (processParts true Store.emptyStore 0 0 ["SET", "k"]).panicked = true ∧
    (processParts true Store.emptyStore 0 0 ["SET", "k"]).output = [] ∧
    (processParts true Store.emptyStore 0 0 ["DEL"]).panicked = false ∧
    (processParts true Store.emptyStore 0 0 ["DEL"]).output = [":0"] ∧
    (processParts false Store.emptyStore 0 0 ["AUTH"]).output =
      ["-ERR wrong number of arguments for \x27AUTH\x27"] ∧
    (processParts false Store.emptyStore 0 0 ["AUTH"]).panicked = false := by
  decide

/-- Store used in the C10 race scenario: one entry under key `k` expiring at
instant 5. -/
def ttlRaceStore : Store :=
  Store.insert Store.emptyStore "k" { expires_at := some 5, value := "v" }

/-- Claim C10 (evidence of the code bug): `handle_ttl` reads the clock once
inside `get_by_key` and again inside `checked_duration_since`. If the entry
is unexpired at the first reading (4 < 5) but the second reading has moved
past the expiration (6 > 5), `checked_duration_since` returns `None` and the
`unwrap` panics — the `None` branch is reachable. With both readings at 4
the command succeeds and answers the remaining seconds. -/
theorem c10_ttl_unwrap_panic_reachable :
    (processParts true ttlRaceStore 4 4 ["TTL", "k"]).output = ["1"] ∧
    (processParts true ttlRaceStore 4 4 ["TTL", "k"]).panicked = false ∧
    (processParts true ttlRaceStore 4 6 ["TTL", "k"]).panicked = true ∧
    (processParts true ttlRaceStore 4 6 ["TTL", "k"]).output = [] := by
  decide

/-- Claim C7: for every key and value, `SET k v` (no TTL) answers `+OK`
without panicking, and an immediately following `GET k` on an authenticated
session answers exactly `v` in bulk framing, whatever the prior store
contents and whatever the clock readings. -/
theorem c7_set_then_get_roundtrip :
    ∀ (store : Store) (k v : String) (n m m2 : Nat),
      (processParts true store n n ["SET", k, v]).output = ["+OK"] ∧
      (processParts true store n n ["SET", k, v]).panicked = false ∧
      (processParts true (processParts true store n n ["SET", k, v]).store m m2
          ["GET", k]).output =
        ["$" ++ toString v.utf8ByteSize ++ "\r\n" ++ v] := by
  intro store k v n m m2
  refine ⟨rfl, rfl, ?_⟩
  rw [show (processParts true store n n ["SET", k, v]).store
      = Store.insert store k { expires_at := none, value := v } from rfl]
  rw [processParts_get]
  show [getReply (Store.insert store k { expires_at := none, value := v }) k m] = _
  unfold getReply get_by_key Store.insert
  simp

/-- Claim C8: a three-argument SET whose TTL token fails to parse as a
nonnegative 64-bit integer still succeeds: the entry is stored with the
given value and no expiration, and the reply is `+OK`. -/
theorem c8_unparseable_ttl_downgraded :
    ∀ (store : Store) (k t v : String) (n n2 : Nat),
      parseU64 t = none →
      processParts true store n n2 ["SET", k, t, v] =
        reply true (Store.insert store k { expires_at := none, value := v })
          ["+OK"] := by
  intro store k t v n n2 h
  have h0 : processParts true store n n2 ["SET", k, t, v] =
      (match handle_set ["SET", k, t, v] store n with
       | some r => reply true r.1 [r.2]
       | none => panicStep true store []) := rfl
  rw [h0]
  unfold handle_set CacheEntry.new_from_request key_from_request
  simp [h, CacheEntry.new, tokenAt]

/-- Witness for C8 at the concrete unparseable token `10x`. -/
theorem c8_unparseable_ttl_downgraded_witness :
    processParts true Store.emptyStore 0 0 ["SET", "k", "10x", "v"] =
      reply true (Store.insert Store.emptyStore "k" { expires_at := none, value := "v" })
        ["+OK"] :=
  c8_unparseable_ttl_downgraded Store.emptyStore "k" "10x" "v" 0 0 (by decide)

theorem reply_output (a : Bool) (s : Store) (m : List String) :
    (reply a s m).output = m := rfl

/-- Claim C5: GET and TTL treat a physically present entry whose expiration
is ≤ the current reading as absent (`$-1` and `-1`), and GET returns the
stored value exactly when the entry is present and either has no expiration
or expires strictly in the future; on an absent key GET answers `$-1`. -/
theorem c5_expired_entries_treated_absent :
    ∀ (store : Store) (k : String) (now now2 : Nat),
      (∀ e v, store k = some { expires_at := some e, value := v } → e ≤ now →
        (processParts true store now now2 ["GET", k]).output = ["$-1"] ∧
        (processParts true store now now2 ["TTL", k]).output = ["-1"]) ∧
      (∀ entry, store k = some entry → (∀ e, entry.expires_at = some e → now < e) →
        (processParts true store now now2 ["GET", k]).output =
          ["$" ++ toString entry.value.utf8ByteSize ++ "\r\n" ++ entry.value]) ∧
      (store k = none →
        (processParts true store now now2 ["GET", k]).output = ["$-1"]) := by
  intro store k now now2
  refine ⟨?_, ?_, ?_⟩
  · intro e v h he
    have hg : get_by_key store k now = none := by
      unfold get_by_key
      rw [h]
      simp [he]
    constructor
    · rw [processParts_get, reply_output]
      unfold getReply
      rw [hg]
    · rw [processParts_ttl]
      have hr : ttlReplyOpt store k now now2 = some "-1" := by
        unfold ttlReplyOpt
        rw [hg]
      rw [hr]
      rfl
  · intro entry h hlive
    have hg : get_by_key store k now = some entry := by
      unfold get_by_key
      rw [h]
      show (match entry.expires_at with
            | some expiration => if expiration ≤ now then none else some entry
            | none => some entry) = some entry
      cases hexp : entry.expires_at with
      | none => rfl
      | some e => simp [Nat.not_le.mpr (hlive e hexp)]
    rw [processParts_get, reply_output]
    unfold getReply
    rw [hg]
  · intro h
    have hg : get_by_key store k now = none := by
      unfold get_by_key
      rw [h]
    rw [processParts_get, reply_output]
    unfold getReply
    rw [hg]

/-- Store used in the C5 witness: key `a` expired at instant 5. -/
def c5store : Store :=
  Store.insert Store.emptyStore "a" { expires_at := some 5, value := "v" }

/-- Witness for C5: at time 7 the entry that expired at 5 is answered as
absent by both GET and TTL although it is physically present. -/
theorem c5_expired_entries_treated_absent_witness :
    (processParts true c5store 7 7 ["GET", "a"]).output = ["$-1"] ∧
    (processParts true c5store 7 7 ["TTL", "a"]).output = ["-1"] :=
  (c5_expired_entries_treated_absent c5store "a" 7 7).1 5 "v" (by decide) (by decide)

theorem delLoop_lookup : ∀ (ks : List String) (s : Store) (k : String),
    (delLoop s ks).1 k = if k ∈ ks then none else s k := by
  intro ks
  induction ks with
  | nil => intro s k; simp [delLoop]
  | cons j js ih =>
    intro s k
    show (delLoop (Store.remove s j) js).1 k = _
    rw [ih]
    by_cases hk : k = j
    · subst hk
      simp [Store.remove, List.mem_cons]
    · simp [Store.remove, hk, List.mem_cons]

theorem delLoop_count : ∀ (ks : List String) (base : Store) (seen : List String) (s : Store),
    (∀ j, s j = if j ∈ seen then none else base j) →
    (delLoop s ks).2 = distinctPresentCount base seen ks := by
  intro ks
  induction ks with
  | nil => intro base seen s hinv; rfl
  | cons j js ih =>
    intro base seen s hinv
    show (if (s j).isSome then 1 else 0) + (delLoop (Store.remove s j) js).2 = _
    have hinv2 : ∀ i, Store.remove s j i = if i ∈ j :: seen then none else base i := by
      intro i
      by_cases hij : i = j
      · subst hij
        simp [Store.remove, List.mem_cons]
      · simp [Store.remove, hij, List.mem_cons, hinv i]
    rw [ih base (j :: seen) _ hinv2]
    show _ = (if j ∉ seen ∧ (base j).isSome then 1 else 0) +
      distinctPresentCount base (j :: seen) js
    congr 1
    rw [hinv j]
    by_cases hjs : j ∈ seen
    · simp [hjs]
    · simp [hjs]

/-- Claim C6: DEL removes every listed key and its `:<count>` reply is
exactly the number of distinct listed keys physically present in the map,
regardless of logical expiration; absent keys and repeated keys are not
counted, keys not listed are untouched, and DEL never panics. -/
theorem c6_del_counts_physical_presence :
    ∀ (keys : List String) (store : Store) (n n2 : Nat),
      ((processParts true store n n2 ("DEL" :: keys)).output =
        [":" ++ toString (distinctPresentCount store [] keys)]) ∧
      ((processParts true store n n2 ("DEL" :: keys)).panicked = false) ∧
      (∀ k, k ∈ keys → (processParts true store n n2 ("DEL" :: keys)).store k = none) ∧
      (∀ k, k ∉ keys → (processParts true store n n2 ("DEL" :: keys)).store k = store k) := by
  intro keys store n n2
  rw [processParts_del]
  refine ⟨?_, rfl, ?_, ?_⟩
  · have hc : (delLoop store keys).2 = distinctPresentCount store [] keys :=
      delLoop_count keys store [] store (fun j => by simp)
    rw [reply_output, hc]
  · intro k hk
    show (delLoop store keys).1 k = none
    rw [delLoop_lookup]
    simp [hk]
  · intro k hk
    show (delLoop store keys).1 k = store k
    rw [delLoop_lookup]
    simp [hk]

/-- Store used in the C6 witness: `a` physically present but already expired
at instant 0, `c` present without expiration, `b` absent. -/
def c6store : Store :=
  Store.insert (Store.insert Store.emptyStore "c" { expires_at := none, value := "x" })
    "a" { expires_at := some 0, value := "y" }

/-- Witness for C6: `DEL a a b c` counts the expired-but-present `a` and the
live `c` once each (2), and removes `a`. -/
theorem c6_del_counts_physical_presence_witness :
    (processParts true c6store 0 0 ["DEL", "a", "a", "b", "c"]).output = [":2"] ∧
    (processParts true c6store 0 0 ["DEL", "a", "a", "b", "c"]).store "a" = none :=
  ⟨((c6_del_counts_physical_presence ["a", "a", "b", "c"] c6store 0 0).1).trans
      (by decide),
   (c6_del_counts_physical_presence ["a", "a", "b", "c"] c6store 0 0).2.2.1 "a"
      (by decide)⟩

/-- Claim C2 (behaviour of the tick that is never started): one tick of the
`retain` loop in `periodic_cleanup` removes exactly the entries whose
`expires_at` is set and ≤ now and keeps every other entry unchanged;
moreover a GET never reclaims a physically present entry, so with the
sweeper unstarted an expired entry stays in the map. -/
theorem c2_sweeper_tick_behaviour :
    (∀ (store : Store) (now : Nat) (k : String) (entry : CacheEntry) (e : Nat),
      store k = some entry → entry.expires_at = some e → e ≤ now →
      periodic_cleanup_tick store now k = none) ∧
    (∀ (store : Store) (now : Nat) (k : String) (entry : CacheEntry),
      store k = some entry → (∀ e, entry.expires_at = some e → now < e) →
      periodic_cleanup_tick store now k = some entry) ∧
    (∀ (store : Store) (now : Nat) (k : String),
      store k = none → periodic_cleanup_tick store now k = none) ∧
    (∀ (store : Store) (k : String) (now now2 : Nat) (entry : CacheEntry),
      store k = some entry →
      (processParts true store now now2 ["GET", k]).store k = some entry) := by
  refine ⟨?_, ?_, ?_, ?_⟩
  · intro store now k entry e h he hle
    unfold periodic_cleanup_tick
    rw [h]
    show (match entry.expires_at with
          | some exp => if now < exp then some entry else none
          | none => some entry) = none
    rw [he]
    simp [Nat.not_lt.mpr hle]
  · intro store now k entry h hlive
    unfold periodic_cleanup_tick
    rw [h]
    show (match entry.expires_at with
          | some exp => if now < exp then some entry else none
          | none => some entry) = some entry
    cases hexp : entry.expires_at with
    | none => rfl
    | some e => simp [hlive e hexp]
  · intro store now k h
    unfold periodic_cleanup_tick
    rw [h]
  · intro store k now now2 entry h
    rw [processParts_get]
    exact h

/-- Witness for C2: a tick at time 5 removes the entry that expired at 3. -/
theorem c2_sweeper_tick_behaviour_witness :
    periodic_cleanup_tick
      (Store.insert Store.emptyStore "k" { expires_at := some 3, value := "v" }) 5 "k"
      = none :=
  c2_sweeper_tick_behaviour.1
    (Store.insert Store.emptyStore "k" { expires_at := some 3, value := "v" }) 5 "k"
    { expires_at := some 3, value := "v" } 3 (by decide) (by decide) (by decide)

theorem processParts_cons (a : Bool) (s : Store) (n n2 : Nat) (head : String)
    (rest : List String) :
    processParts a s n n2 (head :: rest) =
      dispatchCommand a s n n2 (strUpper head) (head :: rest) := rfl

theorem dispatch_auth (a : Bool) (s : Store) (n n2 : Nat) (parts : List String) :
    dispatchCommand a s n n2 "AUTH" parts =
      (if (check_params parts "AUTH").1 then
        match check_password parts with
        | some r => reply r.1 s [r.2]
        | none => panicStep a s []
      else reply a s (check_params parts "AUTH").2) := rfl

theorem dispatch_ping (a : Bool) (s : Store) (n n2 : Nat) (parts : List String) :
    dispatchCommand a s n n2 "PING" parts = reply a s ["+PONG"] := rfl

theorem dispatch_get_cmd (a : Bool) (s : Store) (n n2 : Nat) (parts : List String) :
    dispatchCommand a s n n2 "GET" parts =
      (if (check_authenticated a).1 then
        match handle_get parts s n with
        | some msg => reply a s [msg]
        | none => panicStep a s []
      else reply a s (check_authenticated a).2) := rfl

theorem dispatch_ttl_cmd (a : Bool) (s : Store) (n n2 : Nat) (parts : List String) :
    dispatchCommand a s n n2 "TTL" parts =
      (if (check_authenticated a).1 then
        match handle_ttl parts s n n2 with
        | some msg => reply a s [msg]
        | none => panicStep a s []
      else reply a s (check_authenticated a).2) := rfl

theorem dispatch_set_cmd (a : Bool) (s : Store) (n n2 : Nat) (parts : List String) :
    dispatchCommand a s n n2 "SET" parts =
      (if (check_authenticated a).1 then
        match handle_set parts s n with
        | some r => reply a r.1 [r.2]
        | none => panicStep a s []
      else reply a s (check_authenticated a).2) := rfl

theorem dispatch_del_cmd (a : Bool) (s : Store) (n n2 : Nat) (parts : List String) :
    dispatchCommand a s n n2 "DEL" parts =
      (if (check_authenticated a).1 then
        reply a (handle_del parts s).1 [(handle_del parts s).2]
      else reply a s (check_authenticated a).2) := rfl

theorem dispatch_quit (a : Bool) (s : Store) (n n2 : Nat) (parts : List String) :
    dispatchCommand a s n n2 "QUIT" parts =
      { auth := a, store := s, output := ["+OK"], closed := true, panicked := false } := rfl

theorem dispatch_unknown (a : Bool) (s : Store) (n n2 : Nat) (parts : List String)
    (c : String) (h1 : c ≠ "AUTH") (h2 : c ≠ "PING") (h3 : c ≠ "GET")
    (h4 : c ≠ "TTL") (h5 : c ≠ "SET") (h6 : c ≠ "DEL") (h7 : c ≠ "QUIT") :
    dispatchCommand a s n n2 c parts =
      reply a s ["-ERR: unknown command \x27" ++ c ++ "\x27"] := by
  unfold dispatchCommand
  rw [if_neg h1, if_neg h2, if_neg h3, if_neg h4, if_neg h5, if_neg h6, if_neg h7]

/-- Claim C3: an unauthenticated session gets `-NOAUTH Authentication
required.` for each of GET, TTL, SET and DEL, with the store, the session
flag and the connection untouched; AUTH, PING, QUIT and unknown commands
behave identically whether or not the session is authenticated. -/
theorem c3_unauthenticated_gate :
    (∀ (store : Store) (now now2 : Nat) (head : String) (rest : List String),
      strUpper head ∈ (["GET", "TTL", "SET", "DEL"] : List String) →
      processParts false store now now2 (head :: rest) =
        reply false store ["-NOAUTH Authentication required."]) ∧
    (∀ (store : Store) (now now2 : Nat) (head : String) (rest : List String),
      strUpper head ∉ (["GET", "TTL", "SET", "DEL"] : List String) →
      (processParts false store now now2 (head :: rest)).output =
        (processParts true store now now2 (head :: rest)).output ∧
      (processParts false store now now2 (head :: rest)).store =
        (processParts true store now now2 (head :: rest)).store ∧
      (processParts false store now now2 (head :: rest)).closed =
        (processParts true store now now2 (head :: rest)).closed ∧
      (processParts false store now now2 (head :: rest)).panicked =
        (processParts true store now now2 (head :: rest)).panicked) := by
  constructor
  · intro store now now2 head rest hmem
    rw [processParts_cons]
    simp only [List.mem_cons, List.not_mem_nil, or_false] at hmem
    rcases hmem with h | h | h | h <;> rw [h] <;> rfl
  · intro store now now2 head rest hmem
    simp only [List.mem_cons, List.not_mem_nil, or_false, not_or] at hmem
    obtain ⟨hG, hT, hS, hD⟩ := hmem
    rw [processParts_cons, processParts_cons]
    by_cases hA : strUpper head = "AUTH"
    · rw [hA, dispatch_auth, dispatch_auth]
      cases hcp : (check_params (head :: rest) "AUTH").1
      · exact ⟨rfl, rfl, rfl, rfl⟩
      · cases hpw : check_password (head :: rest) with
        | none => exact ⟨rfl, rfl, rfl, rfl⟩
        | some r => exact ⟨rfl, rfl, rfl, rfl⟩
    · by_cases hP : strUpper head = "PING"
      · rw [hP, dispatch_ping, dispatch_ping]
        exact ⟨rfl, rfl, rfl, rfl⟩
      · by_cases hQ : strUpper head = "QUIT"
        · rw [hQ, dispatch_quit, dispatch_quit]
          exact ⟨rfl, rfl, rfl, rfl⟩
        · rw [dispatch_unknown false store now now2 (head :: rest) (strUpper head)
              hA hP hG hT hS hD hQ,
            dispatch_unknown true store now now2 (head :: rest) (strUpper head)
              hA hP hG hT hS hD hQ]
          exact ⟨rfl, rfl, rfl, rfl⟩

/-- Witness for C3: an unauthenticated `GET x` answers only the NOAUTH
error and leaves everything unchanged. -/
theorem c3_unauthenticated_gate_witness :
    processParts false Store.emptyStore 0 0 ["GET", "x"] =
      reply false Store.emptyStore ["-NOAUTH Authentication required."] :=
  c3_unauthenticated_gate.1 Store.emptyStore 0 0 "GET" ["x"] (by decide)

theorem tokenAt_len2 : ∀ (parts : List String), 2 ≤ parts.length →
    ∃ pw, tokenAt parts 1 = some pw := by
  intro parts h
  match parts with
  | [] => exact absurd h (by simp)
  | [x] => exact absurd h (by simp)
  | x :: y :: rest => exact ⟨y, rfl⟩

theorem wellformed_auth_len (parts : List String) (h : isWellFormedAuth parts = true) :
    2 ≤ parts.length := by
  cases parts with
  | nil => exact absurd h (by decide)
  | cons x xs =>
    have hx : (strUpper x == "AUTH" && decide (2 ≤ (x :: xs).length)) = true := h
    exact of_decide_eq_true ((Bool.and_eq_true _ _).mp hx).2

theorem processParts_auth (a : Bool) (s : Store) (n n2 : Nat) (parts : List String) :
    (processParts a s n n2 parts).auth =
      if isWellFormedAuth parts then decide (tokenAt parts 1 = some PASSWORD) else a := by
  cases parts with
  | nil => rfl
  | cons head rest =>
    rw [processParts_cons]
    by_cases hA : strUpper head = "AUTH"
    · rw [hA, dispatch_auth]
      by_cases hl : (head :: rest).length < 2
      · have hcp : (check_params (head :: rest) "AUTH").1 = false := by
          unfold check_params
          rw [if_pos hl]
        have hwf : isWellFormedAuth (head :: rest) = false := by
          show (strUpper head == "AUTH" && decide (2 ≤ (head :: rest).length)) = false
          have hno : ¬ (2 ≤ (head :: rest).length) := by omega
          rw [decide_eq_false hno, Bool.and_false]
        rw [hcp, hwf]
        rfl
      · have h2 : 2 ≤ (head :: rest).length := Nat.not_lt.mp hl
        have hcp : (check_params (head :: rest) "AUTH").1 = true := by
          unfold check_params
          rw [if_neg hl]
        have hwf : isWellFormedAuth (head :: rest) = true := by
          show (strUpper head == "AUTH" && decide (2 ≤ (head :: rest).length)) = true
          rw [hA, decide_eq_true h2, Bool.and_true]
          exact beq_self_eq_true "AUTH"
        rw [hcp, hwf]
        cases rest with
        | nil => exact absurd h2 (by simp)
        | cons pw rest2 =>
          have hcpw : check_password (head :: pw :: rest2) =
              (if pw = PASSWORD then some (true, "+OK")
               else some (false, "-ERR invalid password")) := rfl
          show (match check_password (head :: pw :: rest2) with
                | some r => reply r.1 s [r.2]
                | none => panicStep a s []).auth =
            decide (some pw = some PASSWORD)
          rw [hcpw]
          by_cases hpw : pw = PASSWORD
          · rw [if_pos hpw]
            show true = decide (some pw = some PASSWORD)
            simp [hpw]
          · rw [if_neg hpw]
            show false = decide (some pw = some PASSWORD)
            simp [hpw]
    · have hwf : isWellFormedAuth (head :: rest) = false := by
        show (strUpper head == "AUTH" && decide (2 ≤ (head :: rest).length)) = false
        simp [hA]
      rw [hwf]
      show (dispatchCommand a s n n2 (strUpper head) (head :: rest)).auth = a
      by_cases hP : strUpper head = "PING"
      · rw [hP, dispatch_ping]
        rfl
      · by_cases hG : strUpper head = "GET"
        · rw [hG, dispatch_get_cmd]
          cases a
          · rfl
          · cases handle_get (head :: rest) s n <;> rfl
        · by_cases hT : strUpper head = "TTL"
          · rw [hT, dispatch_ttl_cmd]
            cases a
            · rfl
            · cases handle_ttl (head :: rest) s n n2 <;> rfl
          · by_cases hS : strUpper head = "SET"
            · rw [hS, dispatch_set_cmd]
              cases a
              · rfl
              · cases handle_set (head :: rest) s n <;> rfl
            · by_cases hD : strUpper head = "DEL"
              · rw [hD, dispatch_del_cmd]
                cases a <;> rfl
              · by_cases hQ : strUpper head = "QUIT"
                · rw [hQ, dispatch_quit]
                · rw [dispatch_unknown a s n n2 (head :: rest) (strUpper head)
                      hA hP hG hT hS hD hQ]
                  rfl

/-- Pure evolution of the session flag over a list of request lines. -/
def authFold (b : Bool) (lines : List LineInput) : Bool :=
  lines.foldl
    (fun x l =>
      if isWellFormedAuth l.1 then decide (tokenAt l.1 1 = some PASSWORD) else x) b

theorem sessionStep_stuck (st : SessionState) (l : LineInput)
    (h : st.closed = true ∨ st.panicked = true) : sessionStep st l = st := by
  unfold sessionStep
  rcases h with h | h <;> simp [h]

theorem sessionStep_auth (st : SessionState) (l : LineInput)
    (hc : st.closed = false) (hp : st.panicked = false) :
    (sessionStep st l).auth =
      if isWellFormedAuth l.1 then decide (tokenAt l.1 1 = some PASSWORD)
      else st.auth := by
  unfold sessionStep
  rw [hc, hp]
  show (processParts st.auth st.store l.2.1 l.2.2 l.1).auth = _
  exact processParts_auth st.auth st.store l.2.1 l.2.2 l.1

theorem runSession_auth_aux : ∀ (lines : List LineInput) (st : SessionState),
    (lines.foldl sessionStep st).closed = false →
    (lines.foldl sessionStep st).panicked = false →
    st.closed = false ∧ st.panicked = false ∧
      (lines.foldl sessionStep st).auth = authFold st.auth lines := by
  intro lines
  induction lines with
  | nil =>
    intro st h1 h2
    exact ⟨h1, h2, rfl⟩
  | cons l ls ih =>
    intro st h1 h2
    obtain ⟨hc, hp, hauth⟩ := ih (sessionStep st l) h1 h2
    have hstc : st.closed = false := by
      by_contra hx
      rw [Bool.not_eq_false] at hx
      have hid := sessionStep_stuck st l (Or.inl hx)
      rw [hid, hx] at hc
      simp at hc
    have hstp : st.panicked = false := by
      by_contra hx
      rw [Bool.not_eq_false] at hx
      have hid := sessionStep_stuck st l (Or.inr hx)
      rw [hid, hx] at hp
      simp at hp
    refine ⟨hstc, hstp, ?_⟩
    show (ls.foldl sessionStep (sessionStep st l)).auth = authFold st.auth (l :: ls)
    rw [hauth, sessionStep_auth st l hstc hstp]
    rfl

theorem authFold_spec : ∀ (lines : List LineInput) (b : Bool) (acc : Option String),
    authFold (match acc with
              | some pw => decide (pw = PASSWORD)
              | none => b) lines =
      (match lines.foldl
          (fun ac l => if isWellFormedAuth l.1 then tokenAt l.1 1 else ac) acc with
       | some pw => decide (pw = PASSWORD)
       | none => b) := by
  intro lines
  induction lines with
  | nil => intro b acc; rfl
  | cons l ls ih =>
    intro b acc
    have hLHS : authFold (match acc with
          | some pw => decide (pw = PASSWORD)
          | none => b) (l :: ls) =
        authFold (if isWellFormedAuth l.1 then decide (tokenAt l.1 1 = some PASSWORD)
          else (match acc with
                | some pw => decide (pw = PASSWORD)
                | none => b)) ls := rfl
    have hRHS : (l :: ls).foldl
          (fun ac j => if isWellFormedAuth j.1 then tokenAt j.1 1 else ac) acc =
        ls.foldl (fun ac j => if isWellFormedAuth j.1 then tokenAt j.1 1 else ac)
          (if isWellFormedAuth l.1 then tokenAt l.1 1 else acc) := rfl
    rw [hLHS, hRHS]
    cases hwf : isWellFormedAuth l.1 with
    | false => exact ih b acc
    | true =>
      obtain ⟨pw, hpw⟩ := tokenAt_len2 l.1 (wellformed_auth_len l.1 hwf)
      rw [hpw]
      have hd : decide (some pw = some PASSWORD) = decide (pw = PASSWORD) := by simp
      rw [hd]
      exact ih b (some pw)

/-- Claim C4: the session flag starts false; processing one line sets it to
true exactly when the line is a well-formed AUTH carrying the configured
password, sets it to false on a well-formed AUTH with any other password,
and leaves it unchanged on every other line; consequently, over any run of
the connection loop the flag is true iff the most recent well-formed AUTH
line carried the correct password. -/
theorem c4_auth_flag_lifecycle :
    ((runSession Store.emptyStore []).auth = false) ∧
    (∀ (a : Bool) (store : Store) (n n2 : Nat) (parts : List String),
      (processParts a store n n2 parts).auth =
        if isWellFormedAuth parts then decide (tokenAt parts 1 = some PASSWORD)
        else a) ∧
    (∀ (store : Store) (lines : List LineInput),
      (runSession store lines).closed = false →
      (runSession store lines).panicked = false →
      ((runSession store lines).auth = true ↔ lastAuthPw lines = some PASSWORD)) := by
  refine ⟨rfl, processParts_auth, ?_⟩
  intro store lines h1 h2
  obtain ⟨_, _, hauth⟩ := runSession_auth_aux lines
    { auth := false, store := store, closed := false, panicked := false } h1 h2
  show ((lines.foldl sessionStep
    { auth := false, store := store, closed := false, panicked := false }).auth = true)
    ↔ lastAuthPw lines = some PASSWORD
  rw [hauth]
  have hs := authFold_spec lines false none
  rw [show authFold false lines =
      authFold (match (none : Option String) with
                | some pw => decide (pw = PASSWORD)
                | none => false) lines from rfl, hs]
  show (match lastAuthPw lines with
        | some pw => decide (pw = PASSWORD)
        | none => false) = true ↔ lastAuthPw lines = some PASSWORD
  cases hl : lastAuthPw lines with
  | none => simp
  | some pw => simp

/-- Witness for C4: a wrong AUTH followed by a correct AUTH leaves the
session authenticated. -/
theorem c4_auth_flag_lifecycle_witness :
    (runSession Store.emptyStore
      [(["AUTH", "wrong"], 0, 0), (["AUTH", "password"], 0, 0)]).auth = true :=
  (c4_auth_flag_lifecycle.2.2 Store.emptyStore
    [(["AUTH", "wrong"], 0, 0), (["AUTH", "password"], 0, 0)]
    (by decide) (by decide)).mpr (by decide)

/-- One serialized SET of value `wr.1` (with clock reading `wr.2`) to key
`k`, as executed under the store lock. -/
def applyWrite (k : String) (s : Store) (wr : String × Nat) : Store :=
  (processParts true s wr.2 wr.2 ["SET", k, wr.1]).store

theorem foldl_writes_mem (k : String) :
    ∀ (writes : List (String × Nat)) (s : Store), writes ≠ [] →
      ∃ w, w ∈ writes ∧
        (writes.foldl (applyWrite k) s) k =
          some { expires_at := none, value := w.1 } := by
  intro writes
  induction writes with
  | nil =>
    intro s h
    exact absurd rfl h
  | cons w ws ih =>
    intro s h
    cases ws with
    | nil =>
      refine ⟨w, List.mem_cons_self w [], ?_⟩
      show Store.insert s k { expires_at := none, value := w.1 } k = _
      simp [Store.insert]
    | cons w2 ws2 =>
      obtain ⟨w3, hmem, heq⟩ := ih (applyWrite k s w) (by simp)
      exact ⟨w3, List.mem_cons_of_mem w hmem, heq⟩

/-- Claim C9: whatever order the lock serializes a nonempty collection of
SETs to the same key into, a later GET observes exactly one of the written
values, in full bulk framing — never a value that was not written. -/
theorem c9_serialized_sets_one_winner :
    ∀ (store : Store) (k : String) (writes : List (String × Nat)) (m m2 : Nat),
      writes ≠ [] →
      ∃ w, w ∈ writes ∧
        (processParts true (writes.foldl (applyWrite k) store) m m2
          ["GET", k]).output =
          ["$" ++ toString w.1.utf8ByteSize ++ "\r\n" ++ w.1] := by
  intro store k writes m m2 h
  obtain ⟨w, hmem, heq⟩ := foldl_writes_mem k writes store h
  refine ⟨w, hmem, ?_⟩
  rw [processParts_get, reply_output]
  unfold getReply get_by_key
  rw [heq]

/-- Witness for C9: serializing the writes `a` then `b` to key `k`, a GET
observes one of them (the last, `b`). -/
theorem c9_serialized_sets_one_winner_witness :
    ∃ w, w ∈ ([("a", 0), ("b", 1)] : List (String × Nat)) ∧
      (processParts true
        (([("a", 0), ("b", 1)] : List (String × Nat)).foldl (applyWrite "k")
          Store.emptyStore) 5 5 ["GET", "k"]).output =
        ["$" ++ toString w.1.utf8ByteSize ++ "\r\n" ++ w.1] :=
  c9_serialized_sets_one_winner Store.emptyStore "k" [("a", 0), ("b", 1)] 5 5
    (by decide)

end Keyvy
